import Mathlib

/-!
# HyperScan::MultiPattern

A shallow embedding of `src/HyperScan/MultiPattern.cpp`.

`MultiPattern` keeps three `std::vector`s side by side (`_patterns`, `_flags`,
`_ids`).  A vector is a `List`, `push_back x` is `xs ++ [x]`, `clear()` is `[]`.
A member function becomes a function of the object before the call; a function
that changes the object returns the object after the call.  `unsigned int`
values are stored and read back without arithmetic, so they are natural numbers
here.  Running out of memory is outside the embedding.
-/

namespace HyperScan

/-! ## The pattern set -/

/-- The data members of `MultiPattern` that the member functions of
`MultiPattern.cpp` read and write. -/
structure MultiPattern where
  _patterns : List String
  _flags : List Nat
  _ids : List Nat
deriving DecidableEq

namespace MultiPattern

/-- A default-constructed `MultiPattern`: three empty vectors. -/
def empty : MultiPattern := ⟨[], [], []⟩

/-- `void MultiPattern::AddPattern(const std::string&, unsigned int, unsigned int)`:
three `push_back`s, in the order of the source. -/
def AddPattern (self : MultiPattern) (pattern : String) (flags identifier : Nat) :
    MultiPattern :=
  let s1 := { self with _patterns := self._patterns ++ [pattern] }
  let s2 := { s1 with _flags := s1._flags ++ [flags] }
  { s2 with _ids := s2._ids ++ [identifier] }

/-- `void MultiPattern::Clear()`: three `clear()`s, in the order of the source. -/
def Clear (self : MultiPattern) : MultiPattern :=
  let s1 := { self with _flags := [] }
  let s2 := { s1 with _ids := [] }
  { s2 with _patterns := [] }

/-- The predicate `len(expressions) == len(flags) == len(identifiers)`. -/
def EqualLength (self : MultiPattern) : Prop :=
  self._patterns.length = self._flags.length ∧ self._flags.length = self._ids.length

instance (self : MultiPattern) : Decidable self.EqualLength := by
  unfold EqualLength; infer_instance

end MultiPattern

/-- The arguments of one `AddPattern` call. -/
structure AddPatternArgs where
  pattern : String
  flags : Nat
  identifier : Nat
deriving DecidableEq

/-- A run of `AddPattern` calls, first call first. -/
def addPatterns (self : MultiPattern) (calls : List AddPatternArgs) : MultiPattern :=
  calls.foldl (fun s c => s.AddPattern c.pattern c.flags c.identifier) self

/-- A call of one of the two functions that change a `MultiPattern`. -/
inductive Mutation where
  | AddPattern (pattern : String) (flags identifier : Nat)
  | Clear
deriving DecidableEq

/-- The pattern set after one mutating call. -/
def Mutation.apply (self : MultiPattern) : Mutation → MultiPattern
  | .AddPattern pattern flags identifier => self.AddPattern pattern flags identifier
  | .Clear => self.Clear

/-- The pattern set after a run of mutating calls, first call first. -/
def mutate (self : MultiPattern) (ms : List Mutation) : MultiPattern :=
  ms.foldl Mutation.apply self

/-! ## The database classes and the build entry points

`MultiPattern.cpp` includes `BlockDatabase.h`, `VectorDatabase.h` and
`StreamDatabase.h`; the six `Get...Database` functions construct an object of
one of these classes from `*this` and return it by value.  The headers are not
under `src/`, so the entry points take the constructors as a parameter
(`DatabaseClasses`).
-/

/-- Modelled from the spec: the enumeration `Database::Horizon` (declared in a header that is
not under `src/`), with the values the spec lists. -/
inductive Horizon where
  | None
  | Small
  | Medium
  | Large
deriving DecidableEq

/-- The three kinds of database `MultiPattern.cpp` builds, named after the classes
`BlockDatabase`, `VectorDatabase` and `StreamDatabase`. -/
inductive Mode where
  | Block
  | Vector
  | Stream
deriving DecidableEq

/-- What constructing a database does: `result` is the constructed object or the error the
constructor raised, `calls` the calls it made to the compiler library (each recorded as a
value of type `T`), oldest first. -/
structure Built (T E D : Type) where
  result : Except E D
  calls : List T

/-- The same construction with the constructed object passed through `f`. -/
def Built.map {T E D D2 : Type} (f : D → D2) (b : Built T E D) : Built T E D2 :=
  ⟨b.result.map f, b.calls⟩

/-- The constructors `MultiPattern.cpp` calls: for each of the three classes `B`
(`BlockDatabase`), `V` (`VectorDatabase`) and `S` (`StreamDatabase`) one taking
`(pattern, horizon)` and one taking `(pattern, pi, horizon)`, `P` being `PlatformInfo`.
They read the pattern set and may raise an error of type `E`. -/
structure DatabaseClasses (P T E B V S : Type) where
  BlockDatabase : MultiPattern → Horizon → Built T E B
  VectorDatabase : MultiPattern → Horizon → Built T E V
  StreamDatabase : MultiPattern → Horizon → Built T E S
  BlockDatabase_pi : MultiPattern → P → Horizon → Built T E B
  VectorDatabase_pi : MultiPattern → P → Horizon → Built T E V
  StreamDatabase_pi : MultiPattern → P → Horizon → Built T E S

namespace MultiPattern

variable {P T E B V S : Type}

/-- `BlockDatabase MultiPattern::GetBlockDatabase(Database::Horizon horizon)`:
`return BlockDatabase(*this, horizon);`.  The second component is `*this` after the call. -/
def GetBlockDatabase (cls : DatabaseClasses P T E B V S) (self : MultiPattern)
    (horizon : Horizon) : Built T E B × MultiPattern :=
  (cls.BlockDatabase self horizon, self)

/-- `VectorDatabase MultiPattern::GetVectorDatabase(Database::Horizon horizon)`:
`return VectorDatabase(*this, horizon);`. -/
def GetVectorDatabase (cls : DatabaseClasses P T E B V S) (self : MultiPattern)
    (horizon : Horizon) : Built T E V × MultiPattern :=
  (cls.VectorDatabase self horizon, self)

/-- `StreamDatabase MultiPattern::GetStreamDatabase(Database::Horizon horizon)`:
`return StreamDatabase(*this, horizon);`. -/
def GetStreamDatabase (cls : DatabaseClasses P T E B V S) (self : MultiPattern)
    (horizon : Horizon) : Built T E S × MultiPattern :=
  (cls.StreamDatabase self horizon, self)

/-- `BlockDatabase MultiPattern::GetBlockDatabase(const PlatformInfo& pi, Database::Horizon
horizon)`: `return BlockDatabase(*this, pi, horizon);`. -/
def GetBlockDatabase_pi (cls : DatabaseClasses P T E B V S) (self : MultiPattern)
    (pi : P) (horizon : Horizon) : Built T E B × MultiPattern :=
  (cls.BlockDatabase_pi self pi horizon, self)

/-- `VectorDatabase MultiPattern::GetVectorDatabase(const PlatformInfo& pi, Database::Horizon
horizon)`: `return VectorDatabase(*this, pi, horizon);`. -/
def GetVectorDatabase_pi (cls : DatabaseClasses P T E B V S) (self : MultiPattern)
    (pi : P) (horizon : Horizon) : Built T E V × MultiPattern :=
  (cls.VectorDatabase_pi self pi horizon, self)

/-- `StreamDatabase MultiPattern::GetStreamDatabase(const PlatformInfo& pi, Database::Horizon
horizon)`: `return StreamDatabase(*this, pi, horizon);`. -/
def GetStreamDatabase_pi (cls : DatabaseClasses P T E B V S) (self : MultiPattern)
    (pi : P) (horizon : Horizon) : Built T E S × MultiPattern :=
  (cls.StreamDatabase_pi self pi horizon, self)

end MultiPattern

/-- A database of one of the three classes; the constructor records which class the
object belongs to. -/
inductive CompiledDatabase (B V S : Type) where
  | Block (db : B)
  | Vector (db : V)
  | Stream (db : S)
deriving DecidableEq

/-- The variant of a database. -/
def CompiledDatabase.mode {B V S : Type} : CompiledDatabase B V S → Mode
  | .Block _ => Mode.Block
  | .Vector _ => Mode.Vector
  | .Stream _ => Mode.Stream

/-- The six build entry points of `MultiPattern`, the ones with a `PlatformInfo` argument
together with that argument. -/
inductive EntryPoint (P : Type) where
  | GetBlockDatabase
  | GetVectorDatabase
  | GetStreamDatabase
  | GetBlockDatabase_pi (pi : P)
  | GetVectorDatabase_pi (pi : P)
  | GetStreamDatabase_pi (pi : P)
deriving DecidableEq

/-- The mode named by an entry point. -/
def EntryPoint.mode {P : Type} : EntryPoint P → Mode
  | .GetBlockDatabase => Mode.Block
  | .GetVectorDatabase => Mode.Vector
  | .GetStreamDatabase => Mode.Stream
  | .GetBlockDatabase_pi _ => Mode.Block
  | .GetVectorDatabase_pi _ => Mode.Vector
  | .GetStreamDatabase_pi _ => Mode.Stream

/-- The platform descriptor an entry point was given, if it takes one. -/
def EntryPoint.platform {P : Type} : EntryPoint P → Option P
  | .GetBlockDatabase => none
  | .GetVectorDatabase => none
  | .GetStreamDatabase => none
  | .GetBlockDatabase_pi pi => some pi
  | .GetVectorDatabase_pi pi => some pi
  | .GetStreamDatabase_pi pi => some pi

/-- A call of the entry point `e` on `self`: what the function returns, as a database of
the class that is its return type, and `*this` after the call. -/
def invoke {P T E B V S : Type} (cls : DatabaseClasses P T E B V S) (self : MultiPattern)
    (e : EntryPoint P) (horizon : Horizon) :
    Built T E (CompiledDatabase B V S) × MultiPattern :=
  match e with
  | .GetBlockDatabase =>
    ((self.GetBlockDatabase cls horizon).1.map .Block, (self.GetBlockDatabase cls horizon).2)
  | .GetVectorDatabase =>
    ((self.GetVectorDatabase cls horizon).1.map .Vector, (self.GetVectorDatabase cls horizon).2)
  | .GetStreamDatabase =>
    ((self.GetStreamDatabase cls horizon).1.map .Stream, (self.GetStreamDatabase cls horizon).2)
  | .GetBlockDatabase_pi pi =>
    ((self.GetBlockDatabase_pi cls pi horizon).1.map .Block,
      (self.GetBlockDatabase_pi cls pi horizon).2)
  | .GetVectorDatabase_pi pi =>
    ((self.GetVectorDatabase_pi cls pi horizon).1.map .Vector,
      (self.GetVectorDatabase_pi cls pi horizon).2)
  | .GetStreamDatabase_pi pi =>
    ((self.GetStreamDatabase_pi cls pi horizon).1.map .Stream,
      (self.GetStreamDatabase_pi cls pi horizon).2)

/-! ## The constructors as the spec describes them -/

/-- Modelled from the spec: the arguments of one `CompileDatabase` call on the compiler
collaborator (section 6); `P` is the type of platform descriptors (`PlatformInfo`). -/
structure CompileRequest (P : Type) where
  expressions : List String
  flags : List Nat
  identifiers : List Nat
  mode : Mode
  horizon : Horizon
  platform : Option P
deriving DecidableEq

/-- Modelled from the spec: the diagnostic the compiler collaborator surfaces on failure
(section 6): a code, a message and optionally the index of the offending pattern. -/
structure Diagnostic where
  code : Int
  message : String
  pattern_index : Option Nat
deriving DecidableEq

/-- Modelled from the spec: the error taxonomy of section 7. -/
inductive BuildError where
  | ShapeError
  | CompileError (diagnostic : Diagnostic)
  | ResourceError
deriving DecidableEq

/-- Modelled from the spec: the compiler collaborator `CompileDatabase` (section 6), which
returns an opaque handle of type `H` or fails with a diagnostic. -/
abbrev Compiler (P H : Type) := CompileRequest P → Except Diagnostic H

/-- Modelled from the spec: the body shared by the constructors of `BlockDatabase`,
`VectorDatabase` and `StreamDatabase` (`BlockDatabase.h`, `VectorDatabase.h`,
`StreamDatabase.h` and their implementations are not under `src/`).  Section 7: the
equal-length check comes before the compiler is called and fails with `ShapeError`.
Section 4.2: the three sequences, the mode, the horizon and the platform descriptor are
forwarded to the compiler; a handle is returned on success, the diagnostic is propagated
unchanged as a `CompileError` on failure. -/
def DatabaseFactory.Build {P H : Type} (compile : Compiler P H) (mode : Mode)
    (patternSet : MultiPattern) (platformInfo : Option P) (horizon : Horizon) :
    Built (CompileRequest P) BuildError H :=
  if patternSet.EqualLength then
    let request : CompileRequest P :=
      { expressions := patternSet._patterns, flags := patternSet._flags,
        identifiers := patternSet._ids, mode := mode, horizon := horizon,
        platform := platformInfo }
    match compile request with
    | .ok handle => ⟨.ok handle, [request]⟩
    | .error diagnostic => ⟨.error (.CompileError diagnostic), [request]⟩
  else ⟨.error .ShapeError, []⟩

/-- Modelled from the spec: the class `BlockDatabase` (declaration not under `src/`): one
opaque handle, the class being the mode tag. -/
structure BlockDatabase (H : Type) where
  handle : H
deriving DecidableEq

/-- Modelled from the spec: the class `VectorDatabase` (declaration not under `src/`): one
opaque handle, the class being the mode tag. -/
structure VectorDatabase (H : Type) where
  handle : H
deriving DecidableEq

/-- Modelled from the spec: the class `StreamDatabase` (declaration not under `src/`): one
opaque handle, the class being the mode tag. -/
structure StreamDatabase (H : Type) where
  handle : H
deriving DecidableEq

/-- Modelled from the spec: the six constructors of the three database classes (not under
`src/`), each `Build` in the mode of its class, without a platform descriptor for the
`(pattern, horizon)` constructors, wrapping the handle in the class. -/
def DatabaseFactory {P H : Type} (compile : Compiler P H) :
    DatabaseClasses P (CompileRequest P) BuildError (BlockDatabase H) (VectorDatabase H) (StreamDatabase H) where
  BlockDatabase := fun pattern horizon =>
    (DatabaseFactory.Build compile Mode.Block pattern none horizon).map BlockDatabase.mk
  VectorDatabase := fun pattern horizon =>
    (DatabaseFactory.Build compile Mode.Vector pattern none horizon).map VectorDatabase.mk
  StreamDatabase := fun pattern horizon =>
    (DatabaseFactory.Build compile Mode.Stream pattern none horizon).map StreamDatabase.mk
  BlockDatabase_pi := fun pattern pi horizon =>
    (DatabaseFactory.Build compile Mode.Block pattern (some pi) horizon).map BlockDatabase.mk
  VectorDatabase_pi := fun pattern pi horizon =>
    (DatabaseFactory.Build compile Mode.Vector pattern (some pi) horizon).map VectorDatabase.mk
  StreamDatabase_pi := fun pattern pi horizon =>
    (DatabaseFactory.Build compile Mode.Stream pattern (some pi) horizon).map StreamDatabase.mk

/-- The request an entry point is expected to hand to the compiler: the three sequences
of the set, the mode named by the entry point, the horizon and the platform descriptor the
entry point was given. -/
def expectedRequest {P : Type} (self : MultiPattern) (e : EntryPoint P)
    (horizon : Horizon) : CompileRequest P :=
  { expressions := self._patterns, flags := self._flags, identifiers := self._ids,
    mode := e.mode, horizon := horizon, platform := e.platform }

/-- The handle wrapped in the class of the given mode. -/
def wrap {H : Type} (mode : Mode) (handle : H) :
    CompiledDatabase (BlockDatabase H) (VectorDatabase H) (StreamDatabase H) :=
  match mode with
  | .Block => .Block ⟨handle⟩
  | .Vector => .Vector ⟨handle⟩
  | .Stream => .Stream ⟨handle⟩

/-- A compiler collaborator for the examples: it rejects a request that contains the
expression `"("`, naming its position, and otherwise returns the number of expressions
as the handle. -/
def exampleCompiler : Compiler Nat Nat := fun request =>
  if request.expressions.contains "(" then
    .error ⟨-1, "unbalanced parenthesis", some (request.expressions.indexOf "(")⟩
  else .ok request.expressions.length

/-- Constructors for the examples, the same for all three classes: construction fails with
the message `"rejected"` when the set contains the expression `"("`, and otherwise
gives the number of expressions as the database. -/
def exampleClasses : DatabaseClasses Nat Unit String Nat Nat Nat where
  BlockDatabase := fun pattern _ =>
    if pattern._patterns.contains "(" then ⟨.error "rejected", []⟩
    else ⟨.ok pattern._patterns.length, []⟩
  VectorDatabase := fun pattern _ =>
    if pattern._patterns.contains "(" then ⟨.error "rejected", []⟩
    else ⟨.ok pattern._patterns.length, []⟩
  StreamDatabase := fun pattern _ =>
    if pattern._patterns.contains "(" then ⟨.error "rejected", []⟩
    else ⟨.ok pattern._patterns.length, []⟩
  BlockDatabase_pi := fun pattern _ _ =>
    if pattern._patterns.contains "(" then ⟨.error "rejected", []⟩
    else ⟨.ok pattern._patterns.length, []⟩
  VectorDatabase_pi := fun pattern _ _ =>
    if pattern._patterns.contains "(" then ⟨.error "rejected", []⟩
    else ⟨.ok pattern._patterns.length, []⟩
  StreamDatabase_pi := fun pattern _ _ =>
    if pattern._patterns.contains "(" then ⟨.error "rejected", []⟩
    else ⟨.ok pattern._patterns.length, []⟩

/-- The pattern set of the spec's example: `("abc", 0, 1)` and `("d.f", 2, 2)`. -/
def exampleSet : MultiPattern :=
  addPatterns MultiPattern.empty [⟨"abc", 0, 1⟩, ⟨"d.f", 2, 2⟩]

/-- A pattern set whose second expression the example compiler rejects. -/
def rejectedSet : MultiPattern :=
  addPatterns MultiPattern.empty [⟨"abc", 0, 1⟩, ⟨"(", 0, 2⟩]

/-- A pattern set with one expression and neither flags nor identifiers. -/
def mismatchedSet : MultiPattern := ⟨["abc"], [], []⟩

/-! ## Lemmas on the pattern set -/

theorem AddPattern_patterns (s : MultiPattern) (p : String) (f i : Nat) :
    (s.AddPattern p f i)._patterns = s._patterns ++ [p] := rfl

theorem AddPattern_flags (s : MultiPattern) (p : String) (f i : Nat) :
    (s.AddPattern p f i)._flags = s._flags ++ [f] := rfl

theorem AddPattern_ids (s : MultiPattern) (p : String) (f i : Nat) :
    (s.AddPattern p f i)._ids = s._ids ++ [i] := rfl

theorem addPatterns_patterns (calls : List AddPatternArgs) (s : MultiPattern) :
    (addPatterns s calls)._patterns = s._patterns ++ calls.map (·.pattern) := by
  induction calls generalizing s with
  | nil => simp [addPatterns]
  | cons c cs ih =>
    have step : addPatterns s (c :: cs)
        = addPatterns (s.AddPattern c.pattern c.flags c.identifier) cs := rfl
    rw [step, ih, AddPattern_patterns]
    simp

theorem addPatterns_flags (calls : List AddPatternArgs) (s : MultiPattern) :
    (addPatterns s calls)._flags = s._flags ++ calls.map (·.flags) := by
  induction calls generalizing s with
  | nil => simp [addPatterns]
  | cons c cs ih =>
    have step : addPatterns s (c :: cs)
        = addPatterns (s.AddPattern c.pattern c.flags c.identifier) cs := rfl
    rw [step, ih, AddPattern_flags]
    simp

theorem addPatterns_ids (calls : List AddPatternArgs) (s : MultiPattern) :
    (addPatterns s calls)._ids = s._ids ++ calls.map (·.identifier) := by
  induction calls generalizing s with
  | nil => simp [addPatterns]
  | cons c cs ih =>
    have step : addPatterns s (c :: cs)
        = addPatterns (s.AddPattern c.pattern c.flags c.identifier) cs := rfl
    rw [step, ih, AddPattern_ids]
    simp

theorem EqualLength_empty : MultiPattern.empty.EqualLength := by
  simp [MultiPattern.EqualLength, MultiPattern.empty]

theorem EqualLength_AddPattern (s : MultiPattern) (p : String) (f i : Nat)
    (h : s.EqualLength) : (s.AddPattern p f i).EqualLength := by
  obtain ⟨h1, h2⟩ := h
  simp [MultiPattern.EqualLength, AddPattern_patterns, AddPattern_flags, AddPattern_ids, h1, h2]

theorem EqualLength_Clear (s : MultiPattern) : s.Clear.EqualLength := by
  simp [MultiPattern.EqualLength, MultiPattern.Clear]

theorem EqualLength_apply (s : MultiPattern) (m : Mutation) (h : s.EqualLength) :
    (m.apply s).EqualLength := by
  cases m with
  | AddPattern p f i => exact EqualLength_AddPattern s p f i h
  | Clear => exact EqualLength_Clear s

theorem EqualLength_mutate (ms : List Mutation) (s : MultiPattern) (h : s.EqualLength) :
    (mutate s ms).EqualLength := by
  induction ms generalizing s with
  | nil => exact h
  | cons m ms ih => exact ih (m.apply s) (EqualLength_apply s m h)

theorem addPatterns_empty (calls : List AddPatternArgs) :
    addPatterns MultiPattern.empty calls
      = ⟨calls.map (·.pattern), calls.map (·.flags), calls.map (·.identifier)⟩ := by
  have hp := addPatterns_patterns calls MultiPattern.empty
  have hf := addPatterns_flags calls MultiPattern.empty
  have hi := addPatterns_ids calls MultiPattern.empty
  have e1 : MultiPattern.empty._patterns = [] := rfl
  have e2 : MultiPattern.empty._flags = [] := rfl
  have e3 : MultiPattern.empty._ids = [] := rfl
  rw [e1, List.nil_append] at hp
  rw [e2, List.nil_append] at hf
  rw [e3, List.nil_append] at hi
  cases hs : addPatterns MultiPattern.empty calls with
  | mk ps fs is =>
    rw [hs] at hp hf hi
    simp only at hp hf hi
    rw [hp, hf, hi]

/-! ## Lemmas on the build entry points -/

theorem invoke_snd {P T E B V S : Type} (cls : DatabaseClasses P T E B V S) (self : MultiPattern)
    (e : EntryPoint P) (horizon : Horizon) : (invoke cls self e horizon).2 = self := by
  cases e <;> rfl

theorem invoke_mode {P T E B V S : Type} (cls : DatabaseClasses P T E B V S) (self : MultiPattern)
    (e : EntryPoint P) (horizon : Horizon) (db : CompiledDatabase B V S)
    (h : (invoke cls self e horizon).1.result = .ok db) : db.mode = e.mode := by
  cases e <;>
    simp only [invoke, Built.map, Except.map] at h <;>
    split at h <;> cases h <;> rfl

theorem invoke_factory {P H : Type} (compile : Compiler P H) (self : MultiPattern)
    (e : EntryPoint P) (horizon : Horizon) :
    (invoke (DatabaseFactory compile) self e horizon).1
      = (DatabaseFactory.Build compile e.mode self e.platform horizon).map (wrap e.mode) := by
  cases e <;> simp only [invoke, MultiPattern.GetBlockDatabase, MultiPattern.GetVectorDatabase,
      MultiPattern.GetStreamDatabase, MultiPattern.GetBlockDatabase_pi,
      MultiPattern.GetVectorDatabase_pi, MultiPattern.GetStreamDatabase_pi, DatabaseFactory,
      EntryPoint.mode, EntryPoint.platform] <;>
    generalize DatabaseFactory.Build compile _ self _ horizon = b <;>
    rcases b with ⟨r, c⟩ <;> cases r <;> rfl

theorem Build_shape {P H : Type} (compile : Compiler P H) (mode : Mode) (self : MultiPattern)
    (platform : Option P) (horizon : Horizon) (h : ¬ self.EqualLength) :
    DatabaseFactory.Build compile mode self platform horizon = ⟨.error .ShapeError, []⟩ := by
  simp [DatabaseFactory.Build, h]

theorem Build_ok {P H : Type} (compile : Compiler P H) (mode : Mode) (self : MultiPattern)
    (platform : Option P) (horizon : Horizon) (handle : H) (h : self.EqualLength)
    (hc : compile ⟨self._patterns, self._flags, self._ids, mode, horizon, platform⟩
      = .ok handle) :
    DatabaseFactory.Build compile mode self platform horizon
      = ⟨.ok handle, [⟨self._patterns, self._flags, self._ids, mode, horizon, platform⟩]⟩ := by
  simp [DatabaseFactory.Build, h, hc]

theorem Build_error {P H : Type} (compile : Compiler P H) (mode : Mode) (self : MultiPattern)
    (platform : Option P) (horizon : Horizon) (d : Diagnostic) (h : self.EqualLength)
    (hc : compile ⟨self._patterns, self._flags, self._ids, mode, horizon, platform⟩
      = .error d) :
    DatabaseFactory.Build compile mode self platform horizon
      = ⟨.error (.CompileError d),
          [⟨self._patterns, self._flags, self._ids, mode, horizon, platform⟩]⟩ := by
  simp [DatabaseFactory.Build, h, hc]

/-- The three ways a build through the spec's constructors can go. -/
theorem invoke_factory_cases {P H : Type} (compile : Compiler P H) (self : MultiPattern)
    (e : EntryPoint P) (horizon : Horizon) :
    (¬ self.EqualLength ∧
      (invoke (DatabaseFactory compile) self e horizon).1 = ⟨.error .ShapeError, []⟩) ∨
    (∃ handle, self.EqualLength ∧
      compile (expectedRequest self e horizon) = .ok handle ∧
      (invoke (DatabaseFactory compile) self e horizon).1
        = ⟨.ok (wrap e.mode handle), [expectedRequest self e horizon]⟩) ∨
    (∃ d, self.EqualLength ∧
      compile (expectedRequest self e horizon) = .error d ∧
      (invoke (DatabaseFactory compile) self e horizon).1
        = ⟨.error (.CompileError d), [expectedRequest self e horizon]⟩) := by
  rw [invoke_factory]
  by_cases h : self.EqualLength
  · cases hc : compile (expectedRequest self e horizon) with
    | ok handle =>
      refine Or.inr (Or.inl ⟨handle, h, rfl, ?_⟩)
      rw [Build_ok compile e.mode self e.platform horizon handle h hc]
      rfl
    | error d =>
      refine Or.inr (Or.inr ⟨d, h, rfl, ?_⟩)
      rw [Build_error compile e.mode self e.platform horizon d h hc]
      rfl
  · refine Or.inl ⟨h, ?_⟩
    rw [Build_shape compile e.mode self e.platform horizon h]
    rfl

/-! ## The pattern set: claims -/

/-- C1: after the calls `calls` of `AddPattern` on an empty `MultiPattern`, each of the
three sequences has length `calls.length`, and for every `i < calls.length` the `i`-th
expression, flags value and identifier are the arguments of the `i`-th call. -/
theorem addPatterns_preserves_order (calls : List AddPatternArgs) :
    (addPatterns MultiPattern.empty calls)._patterns.length = calls.length ∧
    (addPatterns MultiPattern.empty calls)._flags.length = calls.length ∧
    (addPatterns MultiPattern.empty calls)._ids.length = calls.length ∧
    ∀ (i : Nat) (hi : i < calls.length),
      (addPatterns MultiPattern.empty calls)._patterns[i]? = some calls[i].pattern ∧
      (addPatterns MultiPattern.empty calls)._flags[i]? = some calls[i].flags ∧
      (addPatterns MultiPattern.empty calls)._ids[i]? = some calls[i].identifier := by
  rw [addPatterns_empty]
  refine ⟨by simp, by simp, by simp, ?_⟩
  intro i hi
  simp [List.getElem?_map, List.getElem?_eq_getElem hi]

/-- C2: the three sequences have the same length in the empty set, `AddPattern` and
`Clear` preserve that, and so it holds after any run of `AddPattern` and `Clear` calls on
the empty set. -/
theorem equal_length_invariant :
    MultiPattern.empty.EqualLength ∧
    (∀ (s : MultiPattern) (p : String) (f i : Nat),
      s.EqualLength → (s.AddPattern p f i).EqualLength) ∧
    (∀ s : MultiPattern, s.EqualLength → s.Clear.EqualLength) ∧
    (∀ ms : List Mutation, (mutate MultiPattern.empty ms).EqualLength) :=
  ⟨EqualLength_empty, EqualLength_AddPattern, fun s _ => EqualLength_Clear s,
    fun ms => EqualLength_mutate ms MultiPattern.empty EqualLength_empty⟩

/-- C3: whatever the set holds, after `Clear` all three sequences are empty; in
particular no sequence is empty while another is not. -/
theorem Clear_empties_all (s : MultiPattern) :
    s.Clear._patterns = [] ∧ s.Clear._flags = [] ∧ s.Clear._ids = [] ∧
    s.Clear = MultiPattern.empty ∧
    ¬ ((s.Clear._patterns = [] ∨ s.Clear._flags = [] ∨ s.Clear._ids = []) ∧
       (s.Clear._patterns ≠ [] ∨ s.Clear._flags ≠ [] ∨ s.Clear._ids ≠ [])) := by
  refine ⟨rfl, rfl, rfl, rfl, ?_⟩
  rintro ⟨_, h | h | h⟩ <;> exact h rfl

/-- C9: for every set and all arguments, `AddPattern` returns a set in which each of the
three sequences is the old one with the argument appended: one element longer, the
argument in the last place, every earlier element as before.  Nothing is checked about the
expression and nothing is compared with the entries present. -/
theorem AddPattern_appends (s : MultiPattern) (pattern : String) (flags identifier : Nat) :
    ((s.AddPattern pattern flags identifier)._patterns = s._patterns ++ [pattern] ∧
     (s.AddPattern pattern flags identifier)._flags = s._flags ++ [flags] ∧
     (s.AddPattern pattern flags identifier)._ids = s._ids ++ [identifier]) ∧
    ((s.AddPattern pattern flags identifier)._patterns.length = s._patterns.length + 1 ∧
     (s.AddPattern pattern flags identifier)._flags.length = s._flags.length + 1 ∧
     (s.AddPattern pattern flags identifier)._ids.length = s._ids.length + 1) ∧
    ((s.AddPattern pattern flags identifier)._patterns[s._patterns.length]? = some pattern ∧
     (s.AddPattern pattern flags identifier)._flags[s._flags.length]? = some flags ∧
     (s.AddPattern pattern flags identifier)._ids[s._ids.length]? = some identifier) ∧
    ((∀ j, j < s._patterns.length →
        (s.AddPattern pattern flags identifier)._patterns[j]? = s._patterns[j]?) ∧
     (∀ j, j < s._flags.length →
        (s.AddPattern pattern flags identifier)._flags[j]? = s._flags[j]?) ∧
     (∀ j, j < s._ids.length →
        (s.AddPattern pattern flags identifier)._ids[j]? = s._ids[j]?)) := by
  rw [AddPattern_patterns, AddPattern_flags, AddPattern_ids]
  refine ⟨⟨rfl, rfl, rfl⟩, ⟨by simp, by simp, by simp⟩, ⟨by simp, by simp, by simp⟩, ?_, ?_, ?_⟩
  · intro j hj
    exact List.getElem?_append_left hj
  · intro j hj
    exact List.getElem?_append_left hj
  · intro j hj
    exact List.getElem?_append_left hj

/-! ## The build entry points: claims -/

/-- C4: for every pattern set whose three sequences do not all have the same length,
each of the six build entry points, with the constructors as the spec describes them,
fails with `ShapeError` and makes no call to the compiler. -/
theorem build_mismatched_is_ShapeError {P H : Type} (compile : Compiler P H)
    (self : MultiPattern) (e : EntryPoint P) (horizon : Horizon)
    (h : ¬ self.EqualLength) :
    (invoke (DatabaseFactory compile) self e horizon).1.result = .error .ShapeError ∧
    (invoke (DatabaseFactory compile) self e horizon).1.calls = [] := by
  rw [invoke_factory, Build_shape compile e.mode self e.platform horizon h]
  exact ⟨rfl, rfl⟩

/-- C5: for every pattern set, horizon and entry point, with the constructors as the spec
describes them, every request the entry point hands to the compiler consists of the
three sequences of the set as they are, the mode named by the entry point, the horizon
given and the platform descriptor given (none for the three entry points without a
`PlatformInfo`); exactly that one request is handed over unless the build stops with
`ShapeError`, which it does not when the three sequences have the same length. -/
theorem build_forwards_snapshot {P H : Type} (compile : Compiler P H)
    (self : MultiPattern) (e : EntryPoint P) (horizon : Horizon) :
    (∀ r ∈ (invoke (DatabaseFactory compile) self e horizon).1.calls,
      r.expressions = self._patterns ∧ r.flags = self._flags ∧ r.identifiers = self._ids ∧
      r.horizon = horizon ∧ r.mode = e.mode ∧ r.platform = e.platform) ∧
    ((invoke (DatabaseFactory compile) self e horizon).1.result ≠ .error .ShapeError →
      (invoke (DatabaseFactory compile) self e horizon).1.calls
        = [expectedRequest self e horizon]) ∧
    (self.EqualLength →
      (invoke (DatabaseFactory compile) self e horizon).1.calls
        = [expectedRequest self e horizon]) ∧
    (EntryPoint.GetBlockDatabase : EntryPoint P).platform = none ∧
    (EntryPoint.GetVectorDatabase : EntryPoint P).platform = none ∧
    (EntryPoint.GetStreamDatabase : EntryPoint P).platform = none := by
  refine ⟨?_, ?_, ?_, rfl, rfl, rfl⟩
  · intro r hr
    rcases invoke_factory_cases compile self e horizon with
      ⟨_, hb⟩ | ⟨_, _, _, hb⟩ | ⟨_, _, _, hb⟩
    · rw [hb] at hr
      cases hr
    · rw [hb] at hr
      rw [List.mem_singleton.mp hr]
      exact ⟨rfl, rfl, rfl, rfl, rfl, rfl⟩
    · rw [hb] at hr
      rw [List.mem_singleton.mp hr]
      exact ⟨rfl, rfl, rfl, rfl, rfl, rfl⟩
  · intro hne
    rcases invoke_factory_cases compile self e horizon with
      ⟨_, hb⟩ | ⟨_, _, _, hb⟩ | ⟨_, _, _, hb⟩
    · rw [hb] at hne
      exact absurd rfl hne
    · rw [hb]
    · rw [hb]
  · intro hlen
    rcases invoke_factory_cases compile self e horizon with
      ⟨hn, _⟩ | ⟨_, _, _, hb⟩ | ⟨_, _, _, hb⟩
    · exact absurd hlen hn
    · rw [hb]
    · rw [hb]

/-- C6: for every entry point and input, with the constructors as the spec describes
them: if the compiler fails with the diagnostic `d` on a request of the build, the build
returns no database but `CompileError d`, the same diagnostic, and has called the compiler
exactly once; if the compiler succeeds on a request of the build, the build succeeds, with
the returned handle in the class of the entry point; and the build fails with
`CompileError d` if and only if the compiler failed with `d`.  The compiler is never
called more than once. -/
theorem build_propagates_diagnostic {P H : Type} (compile : Compiler P H)
    (self : MultiPattern) (e : EntryPoint P) (horizon : Horizon) :
    (∀ d, (∃ r ∈ (invoke (DatabaseFactory compile) self e horizon).1.calls,
          compile r = .error d) →
      (invoke (DatabaseFactory compile) self e horizon).1.result
        = .error (.CompileError d) ∧
      (∀ db, (invoke (DatabaseFactory compile) self e horizon).1.result ≠ .ok db) ∧
      (invoke (DatabaseFactory compile) self e horizon).1.calls.length = 1) ∧
    (∀ handle, (∃ r ∈ (invoke (DatabaseFactory compile) self e horizon).1.calls,
          compile r = .ok handle) →
      (invoke (DatabaseFactory compile) self e horizon).1.result
        = .ok (wrap e.mode handle)) ∧
    (∀ d, (invoke (DatabaseFactory compile) self e horizon).1.result
          = .error (.CompileError d) ↔
      ∃ r ∈ (invoke (DatabaseFactory compile) self e horizon).1.calls,
        compile r = .error d) ∧
    (invoke (DatabaseFactory compile) self e horizon).1.calls.length ≤ 1 := by
  rcases invoke_factory_cases compile self e horizon with
    ⟨_, hb⟩ | ⟨handle, _, hc, hb⟩ | ⟨d, _, hc, hb⟩
  · rw [hb]
    refine ⟨?_, ?_, ?_, by simp⟩
    · rintro d ⟨r, hr, _⟩
      cases hr
    · rintro handle ⟨r, hr, _⟩
      cases hr
    · intro d
      constructor
      · intro h
        cases h
      · rintro ⟨r, hr, _⟩
        cases hr
  · rw [hb]
    refine ⟨?_, ?_, ?_, by simp⟩
    · rintro d ⟨r, hr, hd⟩
      rw [List.mem_singleton.mp hr, hc] at hd
      cases hd
    · rintro handle2 ⟨r, hr, hd⟩
      rw [List.mem_singleton.mp hr, hc] at hd
      cases hd
      rfl
    · intro d
      constructor
      · intro h
        cases h
      · rintro ⟨r, hr, hd⟩
        rw [List.mem_singleton.mp hr, hc] at hd
        cases hd
  · rw [hb]
    refine ⟨?_, ?_, ?_, by simp⟩
    · rintro d2 ⟨r, hr, hd⟩
      rw [List.mem_singleton.mp hr, hc] at hd
      cases hd
      exact ⟨rfl, (fun _ h => by cases h), rfl⟩
    · rintro handle ⟨r, hr, hd⟩
      rw [List.mem_singleton.mp hr, hc] at hd
      cases hd
    · intro d2
      constructor
      · intro h
        cases h
        exact ⟨_, List.mem_singleton.mpr rfl, hc⟩
      · rintro ⟨r, hr, hd⟩
        rw [List.mem_singleton.mp hr, hc] at hd
        cases hd
        rfl

/-- C8: whatever the constructors do, a database returned by `GetBlockDatabase` is of the
Block variant, one returned by `GetVectorDatabase` of the Vector variant and one returned
by `GetStreamDatabase` of the Stream variant, with and without a `PlatformInfo`; a
database returned by a Stream entry point differs from one returned by a Block entry
point on the same set and horizon. -/
theorem build_returns_named_variant {P T E B V S : Type} (cls : DatabaseClasses P T E B V S)
    (self : MultiPattern) (horizon : Horizon) :
    (∀ (e : EntryPoint P) (db : CompiledDatabase B V S),
      (invoke cls self e horizon).1.result = .ok db → db.mode = e.mode) ∧
    (∀ (es eb : EntryPoint P) (sdb bdb : CompiledDatabase B V S),
      es.mode = Mode.Stream → eb.mode = Mode.Block →
      (invoke cls self es horizon).1.result = .ok sdb →
      (invoke cls self eb horizon).1.result = .ok bdb →
      sdb.mode = Mode.Stream ∧ bdb.mode = Mode.Block ∧ sdb ≠ bdb) := by
  refine ⟨fun e db h => invoke_mode cls self e horizon db h, ?_⟩
  intro es eb sdb bdb hs hb hsdb hbdb
  have h1 : sdb.mode = Mode.Stream := (invoke_mode cls self es horizon sdb hsdb).trans hs
  have h2 : bdb.mode = Mode.Block := (invoke_mode cls self eb horizon bdb hbdb).trans hb
  refine ⟨h1, h2, ?_⟩
  intro heq
  rw [heq, h2] at h1
  cases h1

/-- C10: whatever the constructors do and whether the build succeeds or fails, after a
call of any of the six build entry points the three sequences of the set are the ones
before the call; a further build and a further `AddPattern` or `Clear` give what they
would have given had the build not happened. -/
theorem build_leaves_set_unchanged {P T E B V S : Type} (cls : DatabaseClasses P T E B V S)
    (self : MultiPattern) (e : EntryPoint P) (horizon : Horizon) :
    ((invoke cls self e horizon).2._patterns = self._patterns ∧
     (invoke cls self e horizon).2._flags = self._flags ∧
     (invoke cls self e horizon).2._ids = self._ids) ∧
    (∀ (e2 : EntryPoint P) (horizon2 : Horizon),
      invoke cls (invoke cls self e horizon).2 e2 horizon2 = invoke cls self e2 horizon2) ∧
    (∀ m : Mutation, m.apply (invoke cls self e horizon).2 = m.apply self) ∧
    (∀ pi : P,
      (self.GetBlockDatabase cls horizon).2 = self ∧
      (self.GetVectorDatabase cls horizon).2 = self ∧
      (self.GetStreamDatabase cls horizon).2 = self ∧
      (self.GetBlockDatabase_pi cls pi horizon).2 = self ∧
      (self.GetVectorDatabase_pi cls pi horizon).2 = self ∧
      (self.GetStreamDatabase_pi cls pi horizon).2 = self) := by
  rw [invoke_snd]
  exact ⟨⟨rfl, rfl, rfl⟩, fun _ _ => rfl, fun _ => rfl, fun _ => ⟨rfl, rfl, rfl, rfl, rfl, rfl⟩⟩

/-! ## The claims at concrete inputs -/

theorem addPatterns_preserves_order_witness :
    (addPatterns MultiPattern.empty [⟨"abc", 0, 1⟩, ⟨"d.f", 2, 2⟩])._patterns[1]? = some "d.f" ∧
    (addPatterns MultiPattern.empty [⟨"abc", 0, 1⟩, ⟨"d.f", 2, 2⟩])._flags[1]? = some 2 ∧
    (addPatterns MultiPattern.empty [⟨"abc", 0, 1⟩, ⟨"d.f", 2, 2⟩])._ids[1]? = some 2 :=
  (addPatterns_preserves_order [⟨"abc", 0, 1⟩, ⟨"d.f", 2, 2⟩]).2.2.2 1 (by decide)

theorem AddPattern_appends_witness :
    (exampleSet.AddPattern "" 0 1)._patterns = ["abc", "d.f", ""] ∧
    (exampleSet.AddPattern "" 0 1)._flags = [0, 2, 0] ∧
    (exampleSet.AddPattern "" 0 1)._ids = [1, 2, 1] :=
  (AddPattern_appends exampleSet "" 0 1).1

theorem build_mismatched_is_ShapeError_witness :
    ¬ mismatchedSet.EqualLength ∧
    (invoke (DatabaseFactory exampleCompiler) mismatchedSet
      (EntryPoint.GetVectorDatabase_pi 7) Horizon.Large).1.result = .error .ShapeError ∧
    (invoke (DatabaseFactory exampleCompiler) mismatchedSet
      (EntryPoint.GetVectorDatabase_pi 7) Horizon.Large).1.calls = [] :=
  ⟨by decide,
    build_mismatched_is_ShapeError exampleCompiler mismatchedSet
      (EntryPoint.GetVectorDatabase_pi 7) Horizon.Large (by decide)⟩

theorem build_forwards_snapshot_witness :
    (invoke (DatabaseFactory exampleCompiler) exampleSet
      (EntryPoint.GetBlockDatabase_pi 7) Horizon.None).1.calls
      = [⟨["abc", "d.f"], [0, 2], [1, 2], Mode.Block, Horizon.None, some 7⟩] :=
  (build_forwards_snapshot exampleCompiler exampleSet
    (EntryPoint.GetBlockDatabase_pi 7) Horizon.None).2.2.1 (by decide)

theorem build_propagates_diagnostic_witness :
    (invoke (DatabaseFactory exampleCompiler) rejectedSet
      EntryPoint.GetStreamDatabase Horizon.Small).1.result
      = .error (.CompileError ⟨-1, "unbalanced parenthesis", some 1⟩) ∧
    (invoke (DatabaseFactory exampleCompiler) rejectedSet
      EntryPoint.GetStreamDatabase Horizon.Small).1.calls.length = 1 :=
  (build_propagates_diagnostic exampleCompiler rejectedSet
    EntryPoint.GetStreamDatabase Horizon.Small).1 ⟨-1, "unbalanced parenthesis", some 1⟩
    ⟨expectedRequest rejectedSet EntryPoint.GetStreamDatabase Horizon.Small,
      List.mem_singleton.mpr rfl, rfl⟩ |> fun h => ⟨h.1, h.2.2⟩

theorem build_returns_named_variant_witness :
    (invoke exampleClasses exampleSet
      EntryPoint.GetStreamDatabase Horizon.None).1.result = .ok (.Stream 2) ∧
    (invoke exampleClasses exampleSet
      EntryPoint.GetBlockDatabase Horizon.None).1.result = .ok (.Block 2) ∧
    (CompiledDatabase.Stream 2 : CompiledDatabase Nat Nat Nat).mode
      = Mode.Stream ∧
    (CompiledDatabase.Block 2 : CompiledDatabase Nat Nat Nat).mode
      = Mode.Block ∧
    (CompiledDatabase.Stream 2 : CompiledDatabase Nat Nat Nat) ≠ CompiledDatabase.Block 2 :=
  ⟨rfl, rfl,
    (build_returns_named_variant exampleClasses exampleSet Horizon.None).2
      EntryPoint.GetStreamDatabase EntryPoint.GetBlockDatabase (.Stream 2) (.Block 2)
      rfl rfl rfl rfl⟩

theorem build_leaves_set_unchanged_witness :
    (invoke exampleClasses rejectedSet
      EntryPoint.GetStreamDatabase Horizon.Small).1.result
      = .error "rejected" ∧
    (invoke exampleClasses rejectedSet
      EntryPoint.GetStreamDatabase Horizon.Small).2._patterns = ["abc", "("] ∧
    (invoke exampleClasses rejectedSet
      EntryPoint.GetStreamDatabase Horizon.Small).2._flags = [0, 0] ∧
    (invoke exampleClasses rejectedSet
      EntryPoint.GetStreamDatabase Horizon.Small).2._ids = [1, 2] :=
  ⟨rfl,
    (build_leaves_set_unchanged exampleClasses rejectedSet
      EntryPoint.GetStreamDatabase Horizon.Small).1⟩

end HyperScan
